import Mathlib

/-!
Shallow embedding of the GPO fishing macro's estimation-and-control core.

Source files embedded:
- src/detector.py : `FishingDetector` (position estimators, kinematics
  tracker and the `should_hold_mouse` controller decision tree);
- src/main.py : `FishingMacro._handle_idle` (idle-state machine, timeout
  recast and anti-AFK escalation);
- src/config.py : the tuning constants the above consume.

Modelling conventions:
- Python `int` pixel coordinates become `ℤ`; pixel counts become `ℕ`.
- Python `float` velocity arithmetic uses only multiplications by 0.5
  (exact in binary floating point) and additions; we model it with exact
  `ℚ`.  Threshold comparisons against 0.5, 0.1, and the 20%-of-max row
  threshold are modelled as exact rational comparisons; the float
  rounding of these literals only matters on a measure-zero boundary
  that no claim touches.
- `int(np.mean(xs))` over nonnegative integers is floor division
  `sum / len`, modelled with `ℕ` division.
- A captured frame enters the estimators only through derived data: the
  per-row blue-pixel counts (`blue_per_row` in `get_sweet_spot_position`)
  and the white/green matched-pixel y-coordinate lists (the two masks in
  `get_fish_position`; their colour ranges are disjoint in the blue
  channel, so the pixel count of their bitwise OR is the sum of the two
  counts and its coordinate list is their concatenation).
- `self.hold_frames` is written in `__init__`/`reset_state` and never
  read or updated anywhere else, so it is omitted from the state.
- `predicted_sweet_y`/`predicted_distance` (lines 368-371) and
  `brake_distance` (line 404) are computed but used only in DEBUG
  prints; they are omitted.
-/

set_option maxRecDepth 10000
set_option maxHeartbeats 1000000

namespace GpoFishing

/-- src/config.py: `DEAD_ZONE = 20`. -/
def DEAD_ZONE : ℤ := 20

/-- src/config.py: `BRAKE_VELOCITY = 8`. -/
def BRAKE_VELOCITY : ℚ := 8

/-- src/config.py: `GRAVITY_COMPENSATION = 0`. -/
def GRAVITY_COMPENSATION : ℤ := 0

/-- src/config.py: `MIN_FISH_MARKER_PIXELS = 10`. -/
def MIN_FISH_MARKER_PIXELS : ℕ := 10

/-- src/config.py: `IDLE_TIMEOUT = 30.0` (seconds). -/
def IDLE_TIMEOUT : ℚ := 30

/-- src/detector.py `__init__`: `PULSE_HOLD_FRAMES = 5`. -/
def PULSE_HOLD_FRAMES : ℕ := 5

/-- src/detector.py `__init__`: `PULSE_RELEASE_FRAMES = 1`. -/
def PULSE_RELEASE_FRAMES : ℕ := 1

/-- src/detector.py `__init__`: `MAX_SWEET_SPOT_JUMP = 50`. -/
def MAX_SWEET_SPOT_JUMP : ℤ := 50

/-- src/main.py `__init__`: `NO_BAIT_THRESHOLD = 7`. -/
def NO_BAIT_THRESHOLD : ℕ := 7

/-- Per-session mutable state of `FishingDetector` (src/detector.py).
Field names follow the Python attributes.  `hold_frames` is omitted
(written but never read). -/
structure Detector where
  last_fish_y : Option ℤ
  last_sweet_spot_y : Option ℤ
  fish_is_green : Bool
  prev_sweet_spot_y : Option ℤ
  sweet_spot_velocity : ℚ
  is_holding : Bool
  pulse_counter : ℕ
  in_dead_zone : Bool
  brake_frames : ℕ
  warmup_frames : ℕ
  deriving Repr, DecidableEq

/-- `FishingDetector.__init__`: all positions unknown, velocity 0,
not holding, counters 0. -/
def initDetector : Detector :=
  { last_fish_y := none
    last_sweet_spot_y := none
    fish_is_green := false
    prev_sweet_spot_y := none
    sweet_spot_velocity := 0
    is_holding := false
    pulse_counter := 0
    in_dead_zone := false
    brake_frames := 0
    warmup_frames := 0 }

/-- `FishingDetector.reset_state` (src/detector.py lines 63-77): fresh
state for a new fish; the sweet-spot estimate is seeded to the bar
midpoint 150 and the warmup counter to 10. -/
def reset_state : Detector :=
  { last_fish_y := none
    last_sweet_spot_y := some 150
    fish_is_green := false
    prev_sweet_spot_y := none
    sweet_spot_velocity := 0
    is_holding := false
    pulse_counter := 0
    in_dead_zone := false
    brake_frames := 0
    warmup_frames := 10 }

/-- The 4-tick dither of `should_hold_mouse` (lines 330-348): advance
the pulse counter and hold on the first 2 ticks of each 4-tick cycle
(`(self.pulse_counter % 4) < 2`). -/
def ditherStep (d : Detector) : Bool × Detector :=
  let pc := d.pulse_counter + 1
  let sh : Bool := decide (pc % 4 < 2)
  (sh, { d with pulse_counter := pc, is_holding := sh })

/-- Kinematics update of `should_hold_mouse` (lines 350-355): when a
previous sweet-spot position exists, exponentially smooth the one-tick
delta with fixed weight 0.5; always store the current position as
`prev_sweet_spot_y`. -/
def updateVelocity (sweet_spot_y : ℤ) (d : Detector) : Detector :=
  match d.prev_sweet_spot_y with
  | some prev =>
      { d with
        sweet_spot_velocity :=
          d.sweet_spot_velocity * (1/2) + ((sweet_spot_y - prev : ℤ) : ℚ) * (1/2)
        prev_sweet_spot_y := some sweet_spot_y }
  | none => { d with prev_sweet_spot_y := some sweet_spot_y }

/-- Body of `should_hold_mouse` (src/detector.py lines 330-505) after the
two estimator calls, taking their results as inputs.  The nested
`if not is_warmup and abs(v) > BRAKE_VELOCITY: if v < -B ... elif v > B ...`
block is flattened into two guarded branches (with `abs(v) > B` exactly one
of the inner tests fires, so there is no fall-through from the outer
block).  `MEDIUM_JUMP_THRESHOLD = 30` (line 384); `BIG_JUMP_THRESHOLD`
only selects a DEBUG string. -/
def shouldHoldCore (fishY sweetY : Option ℤ) (d : Detector) : Bool × Detector :=
  match fishY, sweetY with
  | some fish_y, some sweet_spot_y =>
    -- line 341: sweet spot stuck at reset value with near-zero velocity
    if sweet_spot_y = 150 ∧ |d.sweet_spot_velocity| < 1/2 then ditherStep d
    else
      let d1 := updateVelocity sweet_spot_y d
      -- line 358: `is_warmup = abs(self.sweet_spot_velocity) < 0.1`
      let is_warmup : Bool := decide (|d1.sweet_spot_velocity| < 1/10)
      -- lines 363-364
      let target_y : ℤ := fish_y - GRAVITY_COMPENSATION
      let distance : ℤ := target_y - sweet_spot_y
      -- line 379
      let active_dead_zone : ℤ := if is_warmup then 5 else DEAD_ZONE
      -- lines 386-400: medium/big jump, sustained action
      if 30 < |distance| then
        if distance < 0 then (true, { d1 with is_holding := true })
        else (false, { d1 with is_holding := false })
      -- lines 408-420: velocity brake
      else if is_warmup = false ∧ BRAKE_VELOCITY < |d1.sweet_spot_velocity| ∧
          d1.sweet_spot_velocity < -BRAKE_VELOCITY then
        (false, { d1 with is_holding := false })
      else if is_warmup = false ∧ BRAKE_VELOCITY < |d1.sweet_spot_velocity| ∧
          BRAKE_VELOCITY < d1.sweet_spot_velocity then
        (true, { d1 with is_holding := true })
      -- lines 424-439: outside the dead zone
      else if distance < -active_dead_zone then
        (true, { d1 with in_dead_zone := false, is_holding := true })
      else if active_dead_zone < distance then
        (false, { d1 with in_dead_zone := false, is_holding := false })
      -- lines 442-505: inside the dead zone
      else
        if d1.fish_is_green = true ∧ sweet_spot_y < 70 then
          (true, { d1 with is_holding := true })
        else if d1.fish_is_green = true ∧ 250 < sweet_spot_y then
          (false, { d1 with is_holding := false })
        else if d1.fish_is_green = false ∧ 250 < sweet_spot_y then
          (true, { d1 with is_holding := true })
        else
          let d2 :=
            if d1.in_dead_zone = false then
              { d1 with in_dead_zone := true, brake_frames := 0, pulse_counter := 0 }
            else d1
          if (3 : ℚ) < d2.sweet_spot_velocity then
            (true, { d2 with is_holding := true })
          else if d2.sweet_spot_velocity < -(3 : ℚ) then
            (false, { d2 with is_holding := false })
          else
            let pc0 := d2.pulse_counter + 1
            let total_cycle := PULSE_HOLD_FRAMES + PULSE_RELEASE_FRAMES
            let pc := if total_cycle ≤ pc0 then 0 else pc0
            if pc < PULSE_HOLD_FRAMES then
              (true, { d2 with pulse_counter := pc, is_holding := true })
            else
              (false, { d2 with pulse_counter := pc, is_holding := false })
  | _, _ =>
    -- lines 330-338: cannot detect positions
    ditherStep d

/-- `get_fish_position` (src/detector.py lines 110-168), taking the frame
through the y-coordinate lists of the white-mask and green-mask matched
pixels (the two colour ranges are disjoint, so the OR-mask pixel count is
the sum and its coordinates the concatenation).  The `fish_is_green` flag
is set from the pixel-count comparison before the minimum-evidence check;
when evidence is short the previous estimate is returned unchanged.
The separate `coords is None` early return is subsumed: it needs
`fish_pixels = 0 < MIN_FISH_MARKER_PIXELS`. -/
def getFishPosition (whiteYs greenYs : List ℕ) (d : Detector) : Option ℤ × Detector :=
  let white_pixels := whiteYs.length
  let green_pixels := greenYs.length
  -- line 135: `self.fish_is_green = green_pixels > white_pixels`
  let d1 := { d with fish_is_green := decide (white_pixels < green_pixels) }
  let fish_pixels := white_pixels + green_pixels
  if fish_pixels < MIN_FISH_MARKER_PIXELS then (d1.last_fish_y, d1)
  else
    -- line 158: green icon offset -8, white icon offset -35
    let offset : ℤ := if d1.fish_is_green then -8 else -35
    -- line 159: `int(np.mean(y_coords)) + offset`, floor mean of indices
    let fish_y : ℤ :=
      (((whiteYs ++ greenYs).foldr (· + ·) 0 / (whiteYs ++ greenYs).length : ℕ) : ℤ) + offset
    (some fish_y, { d1 with last_fish_y := some fish_y })

/-- `max_blue = np.max(blue_per_row) if np.max(blue_per_row) > 0 else 1`
(src/detector.py line 199). -/
def maxBlue (rows : List ℕ) : ℕ :=
  let m := rows.foldr Nat.max 0
  if 0 < m then m else 1

/-- Rows whose blue count is under 20% of the max
(`blue_per_row < max_blue * 0.2`, line 203); for naturals `c < m / 5`
is exactly `5 * c < m`. -/
def sweetSpotRows (rows : List ℕ) : List ℕ :=
  (rows.enum.filter (fun p => 5 * p.2 < maxBlue rows)).map Prod.fst

/-- One step of grouping the ascending clear-row indices into maximal
runs, breaking where the gap to the next index exceeds 5
(`segment_breaks = np.where(gaps > 5)`, line 215). -/
def runsAux (x : ℕ) : List (List ℕ) → List (List ℕ)
  | [] => [[x]]
  | [] :: rest => [x] :: rest
  | (y :: ys) :: rest =>
      if 5 < y - x then [x] :: (y :: ys) :: rest else (x :: y :: ys) :: rest

/-- Group an ascending index list into runs broken at gaps `> 5`
(the `np.split(sweet_spot_rows, segment_breaks + 1)` of lines 214-222). -/
def runs (l : List ℕ) : List (List ℕ) := l.foldr runsAux []

/-- `max(segments, key=len)` (line 223): the first segment of maximal
length, via a left fold that replaces only on strictly greater length. -/
def largestRun (segs : List (List ℕ)) : List ℕ :=
  segs.foldl (fun best s => if best.length < s.length then s else best) []

/-- `int(np.mean(l))` for a nonempty list of nonnegative integers:
floor of the mean. -/
def intMean (l : List ℕ) : ℤ := ((l.foldr (· + ·) 0 / l.length : ℕ) : ℤ)

/-- The raw sweet-spot estimate of `get_sweet_spot_position`
(src/detector.py lines 195-224) from the per-row blue-pixel counts:
`none` when no row is clear, otherwise the floor-mean of the largest
run of clear rows.  (The no-break branch of line 217 equals the mean of
the single run, so both branches are the mean of the largest run.) -/
def sweetSpotCandidate (rows : List ℕ) : Option ℤ :=
  match sweetSpotRows rows with
  | [] => none
  | r :: rs => some (intMean (largestRun (runs (r :: rs))))

/-- `get_sweet_spot_position` (src/detector.py lines 170-257): raw
candidate, then edge rejection (outside 20..280, line 230), warmup
count-down (lines 236-239, no gating), jump rejection against the last
accepted estimate (`jump > MAX_SWEET_SPOT_JUMP`, lines 242-248), then
update of the stored estimate. -/
def get_sweet_spot_position (rows : List ℕ) (d : Detector) : Option ℤ × Detector :=
  match sweetSpotCandidate rows with
  | none => (d.last_sweet_spot_y, d)
  | some sweet_spot_y =>
    if sweet_spot_y < 20 ∨ 280 < sweet_spot_y then (d.last_sweet_spot_y, d)
    else
      let d1 :=
        if 0 < d.warmup_frames then { d with warmup_frames := d.warmup_frames - 1 }
        else d
      match d1.last_sweet_spot_y with
      | some last =>
        if MAX_SWEET_SPOT_JUMP < |sweet_spot_y - last| then (some last, d1)
        else (some sweet_spot_y, { d1 with last_sweet_spot_y := some sweet_spot_y })
      | none => (some sweet_spot_y, { d1 with last_sweet_spot_y := some sweet_spot_y })

/-- `should_hold_mouse` in full (src/detector.py lines 316-505): the two
estimator calls followed by the decision core. -/
def should_hold_mouse (whiteYs greenYs rows : List ℕ) (d : Detector) : Bool × Detector :=
  let fr := getFishPosition whiteYs greenYs d
  let sr := get_sweet_spot_position rows fr.2
  shouldHoldCore fr.1 sr.1 sr.2

/-- States of the session state machine (`FishingState` in src/main.py). -/
inductive FishingState where
  | idle
  | fishing
  | caught
  deriving Repr, DecidableEq

/-- Externally visible actions issued by the macro (mouse actuator calls
and the anti-AFK keyboard sequence). -/
inductive MAction where
  | hold
  | release
  | click
  | antiAfk
  deriving Repr, DecidableEq

/-- The `FishingMacro` state relevant to the session state machine
(src/main.py `__init__` lines 93-99).  Wall-clock time is threaded as an
explicit `ℚ`-valued `now` input to each tick. -/
structure Macro where
  detector : Detector
  state : FishingState
  is_holding : Bool
  idle_start_time : Option ℚ
  consecutive_idle_recasts : ℕ
  deriving Repr, DecidableEq

/-- `FishingMacro._handle_idle` (src/main.py lines 170-206) with the
minigame-visibility test `is_fishing_active` abstracted to the boolean
`active` and `time.time()` to `now`.  On a UI-present tick: reset the
detector, transition to fishing, zero the recast counter, and issue the
initial hold.  Otherwise: start the idle timer if unset; on timeout,
increment the consecutive-recast counter, then either escalate to the
anti-AFK action and reset the counter (at `NO_BAIT_THRESHOLD`) or issue
a recast click, resetting the idle timer either way. -/
def handleIdle (active : Bool) (now : ℚ) (m : Macro) : Macro × List MAction :=
  if active then
    ({ m with
        detector := reset_state
        state := FishingState.fishing
        idle_start_time := none
        consecutive_idle_recasts := 0
        is_holding := true }, [MAction.hold])
  else
    -- line 187-188: if the idle timer is unset, set it to now
    let t0 := m.idle_start_time.getD now
    let m1 := { m with idle_start_time := some t0 }
    -- lines 191-204: timeout check on the elapsed idle duration
    if IDLE_TIMEOUT < now - t0 then
      let c := m1.consecutive_idle_recasts + 1
      if NO_BAIT_THRESHOLD ≤ c then
        ({ m1 with consecutive_idle_recasts := 0, idle_start_time := some now },
          [MAction.antiAfk])
      else
        ({ m1 with consecutive_idle_recasts := c, idle_start_time := some now },
          [MAction.click])
    else (m1, [])

/-- Fold `handleIdle` with the UI absent over a list of tick times,
collecting the issued actions. -/
def idleRun (m : Macro) : List ℚ → Macro × List MAction
  | [] => (m, [])
  | t :: ts =>
      ((idleRun (handleIdle false t m).1 ts).1,
        (handleIdle false t m).2 ++ (idleRun (handleIdle false t m).1 ts).2)

/-- In-deadband steady state for the pulse-cycle analysis: target and
actor both at `y`, settled velocity 0, previous sample `y`, inside the
dead zone with brake counter 0 and the estimator warmup over. -/
def pulseState (y : ℤ) (g : Bool) (pc : ℕ) (h : Bool) : Detector :=
  { last_fish_y := some y
    last_sweet_spot_y := some y
    fish_is_green := g
    prev_sweet_spot_y := some y
    sweet_spot_velocity := 0
    is_holding := h
    pulse_counter := pc
    in_dead_zone := true
    brake_frames := 0
    warmup_frames := 0 }

/-- Iterate the controller from a freshly entered dead zone
(`pulse_counter = 0`) with constant equal target and actor positions. -/
def pulseRun (y : ℤ) (g : Bool) : ℕ → Bool × Detector
  | 0 => (true, pulseState y g 0 true)
  | t + 1 => shouldHoldCore (some y) (some y) (pulseRun y g t).2

/-- Number of hold outputs among ticks `a, ..., a + M - 1` of the run. -/
def countHolds (y : ℤ) (g : Bool) (a M : ℕ) : ℕ :=
  ((List.range M).filter (fun i => (pulseRun y g (a + i)).1)).length

/-- Number of release outputs among ticks `a, ..., a + M - 1` of the run. -/
def countReleases (y : ℤ) (g : Bool) (a M : ℕ) : ℕ :=
  ((List.range M).filter (fun i => !(pulseRun y g (a + i)).1)).length

/-- Row counts whose clear-row gap yields the raw estimate 25
(rows 23-27 clear out of a frame whose other rows hold 10 blue
pixels each). -/
def warmupRows : List ℕ := List.replicate 23 10 ++ List.replicate 5 0

/-- Row counts whose clear-row gap yields the raw estimate 30
(rows 28-32 clear).  (The spec's own instance, an outlier at 400 against
a stable 100, is also rejected, but through the 20..280 edge filter that
precedes the jump check; this witness exercises the jump filter itself.) -/
def outlierRows : List ℕ := List.replicate 28 10 ++ List.replicate 5 0

/-- A session state whose previous sweet-spot sample is 140 while the
current estimate sits at the seed 150 with settled velocity. -/
def stuckDetector : Detector := { reset_state with prev_sweet_spot_y := some 140 }

/-! ## Shared lemmas -/

/-- Every non-dither path of the controller carries the velocity written
by the kinematics update unchanged into the returned state. -/
lemma shouldHoldCore_velocity (fish_y sweet_spot_y : ℤ) (d : Detector)
    (hstuck : ¬(sweet_spot_y = 150 ∧ |d.sweet_spot_velocity| < 1/2)) :
    (shouldHoldCore (some fish_y) (some sweet_spot_y) d).2.sweet_spot_velocity
      = (updateVelocity sweet_spot_y d).sweet_spot_velocity := by
  simp only [shouldHoldCore]
  rw [if_neg hstuck]
  generalize updateVelocity sweet_spot_y d = D
  by_cases h1 : 30 < |fish_y - GRAVITY_COMPENSATION - sweet_spot_y|
  · rw [if_pos h1]
    by_cases h2 : fish_y - GRAVITY_COMPENSATION - sweet_spot_y < 0
    · rw [if_pos h2]
    · rw [if_neg h2]
  · rw [if_neg h1]
    by_cases h3 : decide (|D.sweet_spot_velocity| < (1 : ℚ)/10) = false ∧
        BRAKE_VELOCITY < |D.sweet_spot_velocity| ∧ D.sweet_spot_velocity < -BRAKE_VELOCITY
    · rw [if_pos h3]
    · rw [if_neg h3]
      by_cases h4 : decide (|D.sweet_spot_velocity| < (1 : ℚ)/10) = false ∧
          BRAKE_VELOCITY < |D.sweet_spot_velocity| ∧ BRAKE_VELOCITY < D.sweet_spot_velocity
      · rw [if_pos h4]
      · rw [if_neg h4]
        by_cases h5 : fish_y - GRAVITY_COMPENSATION - sweet_spot_y <
            -(if decide (|D.sweet_spot_velocity| < (1 : ℚ)/10) = true then (5 : ℤ) else DEAD_ZONE)
        · rw [if_pos h5]
        · rw [if_neg h5]
          by_cases h6 : (if decide (|D.sweet_spot_velocity| < (1 : ℚ)/10) = true
              then (5 : ℤ) else DEAD_ZONE) < fish_y - GRAVITY_COMPENSATION - sweet_spot_y
          · rw [if_pos h6]
          · rw [if_neg h6]
            by_cases h7 : D.fish_is_green = true ∧ sweet_spot_y < 70
            · rw [if_pos h7]
            · rw [if_neg h7]
              by_cases h8 : D.fish_is_green = true ∧ 250 < sweet_spot_y
              · rw [if_pos h8]
              · rw [if_neg h8]
                by_cases h9 : D.fish_is_green = false ∧ 250 < sweet_spot_y
                · rw [if_pos h9]
                · rw [if_neg h9]
                  by_cases h10 : D.in_dead_zone = false
                  · rw [if_pos h10]
                    dsimp only
                    by_cases h11 : (3 : ℚ) < D.sweet_spot_velocity
                    · rw [if_pos h11]
                    · rw [if_neg h11]
                      by_cases h12 : D.sweet_spot_velocity < -(3 : ℚ)
                      · rw [if_pos h12]
                      · rw [if_neg h12]
                        by_cases h13 : PULSE_HOLD_FRAMES + PULSE_RELEASE_FRAMES ≤ 0 + 1
                        · rw [if_pos h13]
                          by_cases h14 : (0 : ℕ) < PULSE_HOLD_FRAMES
                          · rw [if_pos h14]
                          · rw [if_neg h14]
                        · rw [if_neg h13]
                          by_cases h14 : 0 + 1 < PULSE_HOLD_FRAMES
                          · rw [if_pos h14]
                          · rw [if_neg h14]
                  · rw [if_neg h10]
                    by_cases h11 : (3 : ℚ) < D.sweet_spot_velocity
                    · rw [if_pos h11]
                    · rw [if_neg h11]
                      by_cases h12 : D.sweet_spot_velocity < -(3 : ℚ)
                      · rw [if_pos h12]
                      · rw [if_neg h12]
                        by_cases h13 : PULSE_HOLD_FRAMES + PULSE_RELEASE_FRAMES
                            ≤ D.pulse_counter + 1
                        · rw [if_pos h13]
                          by_cases h14 : (0 : ℕ) < PULSE_HOLD_FRAMES
                          · rw [if_pos h14]
                          · rw [if_neg h14]
                        · rw [if_neg h13]
                          by_cases h14 : D.pulse_counter + 1 < PULSE_HOLD_FRAMES
                          · rw [if_pos h14]
                          · rw [if_neg h14]

/-- One controller tick in the settled dead zone: with target and actor
equal at `y` (70..250, not the seed 150), velocity 0 and the dead zone
already entered, the tick advances the pulse counter modulo the 6-tick
cycle and holds exactly on the first `PULSE_HOLD_FRAMES` slots. -/
lemma pulse_tick (y : ℤ) (g : Bool) (pc : ℕ) (h : Bool)
    (h70 : 70 ≤ y) (h250 : y ≤ 250) (h150 : y ≠ 150) (hpc : pc ≤ 5) :
    shouldHoldCore (some y) (some y) (pulseState y g pc h)
      = (decide ((pc + 1) % 6 < 5),
         pulseState y g ((pc + 1) % 6) (decide ((pc + 1) % 6 < 5))) := by
  have hstuck : ¬(y = 150 ∧ |(pulseState y g pc h).sweet_spot_velocity| < 1/2) :=
    fun hc => h150 hc.1
  have hupd : updateVelocity y (pulseState y g pc h) = pulseState y g pc h := by
    unfold updateVelocity pulseState
    simp
  simp only [shouldHoldCore]
  rw [if_neg hstuck, hupd]
  have hv0 : (pulseState y g pc h).sweet_spot_velocity = 0 := rfl
  have hg : (pulseState y g pc h).fish_is_green = g := rfl
  have hdz : (pulseState y g pc h).in_dead_zone = true := rfl
  have hpcf : (pulseState y g pc h).pulse_counter = pc := rfl
  simp only [hv0, hg, hdz, hpcf]
  have hdist : y - GRAVITY_COMPENSATION - y = 0 := by
    simp [GRAVITY_COMPENSATION]
  rw [hdist]
  rw [if_neg (show ¬(30 : ℤ) < |0| by norm_num)]
  have hw : decide (|(0 : ℚ)| < 1/10) = true := by norm_num
  rw [hw]
  rw [if_neg (show ¬(true = false ∧ BRAKE_VELOCITY < |(0 : ℚ)| ∧
    (0 : ℚ) < -BRAKE_VELOCITY) by simp)]
  rw [if_neg (show ¬(true = false ∧ BRAKE_VELOCITY < |(0 : ℚ)| ∧
    BRAKE_VELOCITY < (0 : ℚ)) by simp)]
  rw [if_pos (rfl : (true : Bool) = true)]
  rw [if_neg (show ¬(0 : ℤ) < -5 by norm_num)]
  rw [if_neg (show ¬(5 : ℤ) < 0 by norm_num)]
  rw [if_neg (show ¬(g = true ∧ y < 70) from fun hc => absurd hc.2 (by omega))]
  rw [if_neg (show ¬(g = true ∧ 250 < y) from fun hc => absurd hc.2 (by omega))]
  rw [if_neg (show ¬(g = false ∧ 250 < y) from fun hc => absurd hc.2 (by omega))]
  rw [if_neg (show ¬(true : Bool) = false by simp)]
  simp only [hv0, hpcf]
  rw [if_neg (show ¬(3 : ℚ) < 0 by norm_num)]
  rw [if_neg (show ¬(0 : ℚ) < -3 by norm_num)]
  have hpc6 : (if PULSE_HOLD_FRAMES + PULSE_RELEASE_FRAMES ≤ pc + 1 then 0 else pc + 1)
      = (pc + 1) % 6 := by
    unfold PULSE_HOLD_FRAMES PULSE_RELEASE_FRAMES
    split
    · omega
    · omega
  rw [hpc6]
  by_cases hlt : (pc + 1) % 6 < 5
  · rw [if_pos (show (pc + 1) % 6 < PULSE_HOLD_FRAMES by
      unfold PULSE_HOLD_FRAMES; exact hlt)]
    simp [pulseState, hlt]
  · rw [if_neg (show ¬(pc + 1) % 6 < PULSE_HOLD_FRAMES by
      unfold PULSE_HOLD_FRAMES; exact hlt)]
    simp [pulseState, hlt]

/-- The state after `t` settled dead-zone ticks: the pulse counter is
`t % 6` and the holding flag tracks the first five slots of the cycle. -/
lemma pulseRun_state (y : ℤ) (g : Bool)
    (h70 : 70 ≤ y) (h250 : y ≤ 250) (h150 : y ≠ 150) (t : ℕ) :
    (pulseRun y g t).2 = pulseState y g (t % 6) (decide (t % 6 < 5)) := by
  induction t with
  | zero => rfl
  | succ t ih =>
      have hstep : pulseRun y g (t + 1)
          = shouldHoldCore (some y) (some y) (pulseRun y g t).2 := rfl
      rw [hstep, ih, pulse_tick y g (t % 6) _ h70 h250 h150 (by omega)]
      have hm : (t % 6 + 1) % 6 = (t + 1) % 6 := by omega
      rw [hm]

/-- Output of tick `t ≥ 1` of the settled dead-zone run: hold unless
`t % 6 = 5`. -/
lemma pulseRun_out (y : ℤ) (g : Bool)
    (h70 : 70 ≤ y) (h250 : y ≤ 250) (h150 : y ≠ 150) (t : ℕ) (ht : 1 ≤ t) :
    (pulseRun y g t).1 = decide (t % 6 < 5) := by
  obtain ⟨k, rfl⟩ : ∃ k, t = k + 1 := ⟨t - 1, by omega⟩
  have hstep : pulseRun y g (k + 1)
      = shouldHoldCore (some y) (some y) (pulseRun y g k).2 := rfl
  rw [hstep, pulseRun_state y g h70 h250 h150 k,
    pulse_tick y g (k % 6) _ h70 h250 h150 (by omega)]
  have hm : (k % 6 + 1) % 6 = (k + 1) % 6 := by omega
  rw [hm]

/-- Holds and releases partition any window of the run. -/
lemma counts_split (y : ℤ) (g : Bool) (a M : ℕ) :
    countHolds y g a M + countReleases y g a M = M := by
  induction M with
  | zero => rfl
  | succ M ih =>
      unfold countHolds countReleases at ih ⊢
      rw [List.range_succ, List.filter_append, List.filter_append,
        List.length_append, List.length_append]
      cases hb : (pulseRun y g (a + M)).1 <;> simp [List.filter, hb] <;> omega

/-- Closed form for the release count over the window `[a, a + M)`:
exactly the ticks congruent to 5 mod 6. -/
lemma countReleases_formula (y : ℤ) (g : Bool)
    (h70 : 70 ≤ y) (h250 : y ≤ 250) (h150 : y ≠ 150) (a : ℕ) (ha : 1 ≤ a) (M : ℕ) :
    countReleases y g a M = (a + M) / 6 - a / 6 := by
  induction M with
  | zero => simp [countReleases]
  | succ M ih =>
      unfold countReleases at ih ⊢
      rw [List.range_succ, List.filter_append, List.length_append, ih]
      have hout := pulseRun_out y g h70 h250 h150 (a + M) (by omega)
      by_cases h6 : (a + M) % 6 = 5
      · have hb : (pulseRun y g (a + M)).1 = false := by
          rw [hout]
          simp [h6]
        simp only [List.filter, hb]
        simp
        omega
      · have h5 : (a + M) % 6 < 5 := by omega
        have hb : (pulseRun y g (a + M)).1 = true := by
          rw [hout]
          simp [h5]
        simp only [List.filter, hb]
        simp
        omega

/-! ## Claim C6 -/

/-- C6: immediately after every Idle→Tracking transition (detector reset
followed by the initial actuation in `_handle_idle`), the actor-position
estimate equals the configured midpoint seed 150 and the macro's holding
flag is true, the session starting with a hold command. -/
theorem tracking_transition_seed_and_hold (now : ℚ) (m : Macro) :
    (handleIdle true now m).1.detector.last_sweet_spot_y = some 150 ∧
    (handleIdle true now m).1.is_holding = true ∧
    (handleIdle true now m).2 = [MAction.hold] := by
  simp [handleIdle, reset_state]

/-! ## Claim C10 -/

/-- C10: on every call to `get_fish_position` the `fish_is_green` flag is
set to the comparison of the green (locked) pixel count against the white
(idle) pixel count — including calls where the total matched-pixel count
is below `MIN_FISH_MARKER_PIXELS`, on which the previous position
estimate is returned and left unchanged while the flag still updates. -/
theorem fish_green_flag_always_updated (whiteYs greenYs : List ℕ) (d : Detector) :
    (getFishPosition whiteYs greenYs d).2.fish_is_green
      = decide (whiteYs.length < greenYs.length) ∧
    (whiteYs.length + greenYs.length < MIN_FISH_MARKER_PIXELS →
      (getFishPosition whiteYs greenYs d).1 = d.last_fish_y ∧
      (getFishPosition whiteYs greenYs d).2.last_fish_y = d.last_fish_y) := by
  simp only [getFishPosition]
  split_ifs with h1 <;> simp_all

/-- Witness for C10: three white pixels against four green pixels is
below the ten-pixel evidence threshold, yet the flag flips to green. -/
theorem fish_green_flag_always_updated_witness :
    ([1, 2, 3] : List ℕ).length + ([4, 5, 6, 7] : List ℕ).length < MIN_FISH_MARKER_PIXELS ∧
    ((getFishPosition [1, 2, 3] [4, 5, 6, 7] initDetector).2.fish_is_green
        = decide (([1, 2, 3] : List ℕ).length < ([4, 5, 6, 7] : List ℕ).length) ∧
      (([1, 2, 3] : List ℕ).length + ([4, 5, 6, 7] : List ℕ).length < MIN_FISH_MARKER_PIXELS →
        (getFishPosition [1, 2, 3] [4, 5, 6, 7] initDetector).1 = initDetector.last_fish_y ∧
        (getFishPosition [1, 2, 3] [4, 5, 6, 7] initDetector).2.last_fish_y
          = initDetector.last_fish_y)) :=
  ⟨by decide, fish_green_flag_always_updated [1, 2, 3] [4, 5, 6, 7] initDetector⟩

/-! ## Claim C7 -/

/-- C7: on every tick on which either position is unknown, or on which
the sweet-spot estimate still equals the session-start seed 150 with
smoothed velocity below 0.5 in magnitude, the controller returns a
definite command rather than failing: it advances the pulse counter and
holds on the first two ticks of each 4-tick cycle, releasing on the
other two. -/
theorem missing_or_stuck_dither (fishY sweetY : Option ℤ) (d : Detector)
    (h : fishY = none ∨ sweetY = none ∨
      (sweetY = some 150 ∧ |d.sweet_spot_velocity| < 1/2)) :
    shouldHoldCore fishY sweetY d
      = (decide ((d.pulse_counter + 1) % 4 < 2),
         { d with pulse_counter := d.pulse_counter + 1,
                  is_holding := decide ((d.pulse_counter + 1) % 4 < 2) }) := by
  rcases fishY with _ | f
  · simp [shouldHoldCore, ditherStep]
  · rcases sweetY with _ | y
    · simp [shouldHoldCore, ditherStep]
    · rcases h with h | h | ⟨hy, hv⟩
      · exact absurd h (by simp)
      · exact absurd h (by simp)
      · obtain rfl : y = 150 := by injection hy
        simp [shouldHoldCore, ditherStep, hv]
        intro h
        linarith

/-- Witness for C7: with both positions unknown the fresh detector
dithers, holding on the first tick of the cycle. -/
theorem missing_or_stuck_dither_witness :
    ((none : Option ℤ) = none ∨ (none : Option ℤ) = none ∨
      ((none : Option ℤ) = some 150 ∧ |initDetector.sweet_spot_velocity| < 1/2)) ∧
    shouldHoldCore none none initDetector
      = (decide ((initDetector.pulse_counter + 1) % 4 < 2),
         { initDetector with
            pulse_counter := initDetector.pulse_counter + 1,
            is_holding := decide ((initDetector.pulse_counter + 1) % 4 < 2) }) :=
  ⟨Or.inl rfl, missing_or_stuck_dither none none initDetector (Or.inl rfl)⟩

/-! ## Claim C4 -/

/-- C4: outside the warmup window, a sweet-spot detection whose absolute
difference from the previously accepted estimate exceeds
`MAX_SWEET_SPOT_JUMP` is rejected: the estimator returns the previous
value and the stored last-known estimate is unchanged. -/
theorem glitch_jump_rejected (rows : List ℕ) (d : Detector) (y l : ℤ)
    (hc : sweetSpotCandidate rows = some y)
    (hw : d.warmup_frames = 0)
    (hl : d.last_sweet_spot_y = some l)
    (hj : MAX_SWEET_SPOT_JUMP < |y - l|) :
    (get_sweet_spot_position rows d).1 = some l ∧
    (get_sweet_spot_position rows d).2.last_sweet_spot_y = some l := by
  unfold get_sweet_spot_position
  rw [hc]
  try dsimp only
  rw [if_neg (show ¬0 < d.warmup_frames by omega)]
  simp only [hl]
  try dsimp only
  rw [if_pos hj, ite_self]
  exact ⟨rfl, hl⟩

/-- Witness for C4: with the estimate stable at 100 and warmup over, a
single outlier detection at 30 (jump 70 > 50) is rejected and the
estimator still returns 100. -/
theorem glitch_jump_rejected_witness :
    sweetSpotCandidate outlierRows = some 30 ∧
    ({ initDetector with last_sweet_spot_y := some 100 } : Detector).warmup_frames = 0 ∧
    ({ initDetector with last_sweet_spot_y := some 100 } : Detector).last_sweet_spot_y
      = some 100 ∧
    MAX_SWEET_SPOT_JUMP < |(30 : ℤ) - 100| ∧
    ((get_sweet_spot_position outlierRows
        { initDetector with last_sweet_spot_y := some 100 }).1 = some 100 ∧
      (get_sweet_spot_position outlierRows
        { initDetector with last_sweet_spot_y := some 100 }).2.last_sweet_spot_y
        = some 100) :=
  ⟨by decide, rfl, rfl, by decide,
    glitch_jump_rejected outlierRows
      { initDetector with last_sweet_spot_y := some 100 } 30 100
      (by decide) rfl rfl (by decide)⟩

/-! ## Claim C3 -/

/-- Counterexample to C3 as stated: during the warmup window
(`reset_state` has `warmup_frames = 10`), a detection at 25 — which
differs from the seeded previous estimate 150 by 125, more than
`MAX_SWEET_SPOT_JUMP` — is NOT accepted: the estimator returns the
previous value 150 and the stored estimate stays 150.  Jump-rejection
filtering is not bypassed during warmup. -/
theorem warmup_jump_rejected_cex :
    0 < reset_state.warmup_frames ∧
    sweetSpotCandidate warmupRows = some 25 ∧
    reset_state.last_sweet_spot_y = some 150 ∧
    MAX_SWEET_SPOT_JUMP < |(25 : ℤ) - 150| ∧
    (get_sweet_spot_position warmupRows reset_state).1 = some 150 ∧
    (get_sweet_spot_position warmupRows reset_state).2.last_sweet_spot_y = some 150 := by
  decide

/-- C3 amended: during the warmup window the warmup counter is
decremented, but jump-rejection still applies exactly as outside it — a
detection differing from the previous accepted estimate by more than
`MAX_SWEET_SPOT_JUMP` is rejected, the previous value returned and the
stored estimate left unchanged. -/
theorem warmup_jump_rejection_applies (rows : List ℕ) (d : Detector) (y l : ℤ)
    (hc : sweetSpotCandidate rows = some y)
    (he1 : 20 ≤ y) (he2 : y ≤ 280)
    (hw : 0 < d.warmup_frames)
    (hl : d.last_sweet_spot_y = some l)
    (hj : MAX_SWEET_SPOT_JUMP < |y - l|) :
    (get_sweet_spot_position rows d).1 = some l ∧
    (get_sweet_spot_position rows d).2.last_sweet_spot_y = some l ∧
    (get_sweet_spot_position rows d).2.warmup_frames = d.warmup_frames - 1 := by
  unfold get_sweet_spot_position
  rw [hc]
  try dsimp only
  rw [if_neg (show ¬(y < 20 ∨ 280 < y) by omega), if_pos hw]
  try dsimp only
  simp only [hl]
  try dsimp only
  rw [if_pos hj]
  exact ⟨rfl, rfl, rfl⟩

/-- Witness for C3's amended statement, at the counterexample's input. -/
theorem warmup_jump_rejection_applies_witness :
    sweetSpotCandidate warmupRows = some 25 ∧
    (20 : ℤ) ≤ 25 ∧ (25 : ℤ) ≤ 280 ∧
    0 < reset_state.warmup_frames ∧
    reset_state.last_sweet_spot_y = some 150 ∧
    MAX_SWEET_SPOT_JUMP < |(25 : ℤ) - 150| ∧
    ((get_sweet_spot_position warmupRows reset_state).1 = some 150 ∧
      (get_sweet_spot_position warmupRows reset_state).2.last_sweet_spot_y = some 150 ∧
      (get_sweet_spot_position warmupRows reset_state).2.warmup_frames
        = reset_state.warmup_frames - 1) :=
  ⟨by decide, by decide, by decide, by decide, rfl, by decide,
    warmup_jump_rejection_applies warmupRows reset_state 25 150
      (by decide) (by decide) (by decide) (by decide) rfl (by decide)⟩

/-! ## Claim C1 -/

/-- Counterexample to C1 as stated: with both positions known,
target 200 and actor 150 (error +50, beyond the medium-jump threshold
30), the claim demands a sustained release on every such tick regardless
of velocity.  But on the freshly reset state (velocity 0) the
stuck-at-seed check of line 341 fires first — the actor estimate equals
the seed 150 and `|velocity| < 0.5` — and the controller dithers,
returning a hold. -/
theorem stuck_seed_overrides_large_error_cex :
    30 < |(200 : ℤ) - 150| ∧ (0 : ℤ) < 200 - 150 ∧
    reset_state.sweet_spot_velocity = 0 ∧
    (shouldHoldCore (some 200) (some 150) reset_state).1 = true := by
  refine ⟨by decide, by decide, rfl, ?_⟩
  norm_num [shouldHoldCore, reset_state, ditherStep]

/-- C1 amended: on every tick with both positions known and
`|target - actor| > 30`, except when the actor estimate equals the
session seed 150 with `|velocity| < 0.5` (where the stuck-at-seed dither
of line 341 takes priority), the controller outputs a sustained hold
when the target is above the actor (negative error) and a sustained
release when below (positive error), regardless of phase, velocity,
deadband or pulse state. -/
theorem large_error_sustained_action (fish_y sweet_spot_y : ℤ) (d : Detector)
    (hstuck : ¬(sweet_spot_y = 150 ∧ |d.sweet_spot_velocity| < 1/2))
    (hbig : 30 < |fish_y - sweet_spot_y|) :
    (shouldHoldCore (some fish_y) (some sweet_spot_y) d).1
      = decide (fish_y - sweet_spot_y < 0) := by
  simp only [shouldHoldCore]
  rw [if_neg hstuck]
  have hd : fish_y - GRAVITY_COMPENSATION - sweet_spot_y = fish_y - sweet_spot_y := by
    simp [GRAVITY_COMPENSATION]
  rw [hd, if_pos hbig]
  by_cases hlt : fish_y - sweet_spot_y < 0
  · rw [if_pos hlt]
    simp [hlt]
  · rw [if_neg hlt]
    simp [hlt]

/-- Witness for C1's amended statement: target 200, actor 100,
error +100: sustained release. -/
theorem large_error_sustained_action_witness :
    (¬((100 : ℤ) = 150 ∧ |initDetector.sweet_spot_velocity| < 1/2)) ∧
    30 < |(200 : ℤ) - 100| ∧
    (shouldHoldCore (some 200) (some 100) initDetector).1
      = decide ((200 : ℤ) - 100 < 0) :=
  ⟨by decide, by decide,
    large_error_sustained_action 200 100 initDetector (by decide) (by decide)⟩

/-! ## Claim C8 -/

/-- Counterexample to C8 as stated: on a tick where a previous actor
position (140) exists but the stuck-at-seed dither fires (estimate 150,
velocity 0), the controller returns before the kinematics update: the
smoothed velocity stays 0 instead of the claimed
`0.5 * 0 + 0.5 * (150 - 140) = 5`.  A tick with a previous actor
position can therefore skip the update. -/
theorem dither_skips_velocity_update_cex :
    stuckDetector.prev_sweet_spot_y = some 140 ∧
    stuckDetector.sweet_spot_velocity = 0 ∧
    (shouldHoldCore (some 150) (some 150) stuckDetector).2.sweet_spot_velocity = 0 ∧
    stuckDetector.sweet_spot_velocity * (1/2) + (((150 : ℤ) - 140 : ℤ) : ℚ) * (1/2) = 5 ∧
    (0 : ℚ) ≠ 5 := by
  refine ⟨rfl, rfl, ?_, ?_, by norm_num⟩
  · norm_num [shouldHoldCore, ditherStep, stuckDetector, reset_state]
  · show (0 : ℚ) * (1/2) + (((150 : ℤ) - 140 : ℤ) : ℚ) * (1/2) = 5
    norm_num

/-- C8 amended: on every tick that reaches the control logic — both
positions known and the stuck-at-seed dither not firing — if a previous
actor estimate exists, the smoothed velocity of the resulting state is
exactly `0.5 * previous_velocity + 0.5 * (current - previous)`; no such
tick skips the update (ticks short-circuited by the dithers of lines
330-348 do skip it). -/
theorem velocity_update_formula (fish_y sweet_spot_y prev : ℤ) (d : Detector)
    (hp : d.prev_sweet_spot_y = some prev)
    (hstuck : ¬(sweet_spot_y = 150 ∧ |d.sweet_spot_velocity| < 1/2)) :
    (shouldHoldCore (some fish_y) (some sweet_spot_y) d).2.sweet_spot_velocity
      = d.sweet_spot_velocity * (1/2) + ((sweet_spot_y - prev : ℤ) : ℚ) * (1/2) := by
  rw [shouldHoldCore_velocity fish_y sweet_spot_y d hstuck]
  unfold updateVelocity
  rw [hp]

/-- Witness for C8's amended statement: previous sample 100, current
estimate 120, previous velocity 0: new velocity 10. -/
theorem velocity_update_formula_witness :
    ({ initDetector with prev_sweet_spot_y := some 100 } : Detector).prev_sweet_spot_y
      = some 100 ∧
    (¬((120 : ℤ) = 150 ∧
      |({ initDetector with prev_sweet_spot_y := some 100 } : Detector).sweet_spot_velocity|
        < 1/2)) ∧
    (shouldHoldCore (some 90) (some 120)
        { initDetector with prev_sweet_spot_y := some 100 }).2.sweet_spot_velocity
      = ({ initDetector with prev_sweet_spot_y := some 100 } : Detector).sweet_spot_velocity
          * (1/2) + (((120 : ℤ) - 100 : ℤ) : ℚ) * (1/2) :=
  ⟨rfl, by decide,
    velocity_update_formula 90 120 100 { initDetector with prev_sweet_spot_y := some 100 }
      rfl (by decide)⟩

/-! ## Claim C2 -/

/-- C2: on every tick with both positions known where the positional
error is at most the medium-jump threshold 30 but the tick's smoothed
velocity (the value the kinematics update leaves in the returned state)
exceeds `BRAKE_VELOCITY = 8` in magnitude, the controller commands the
direction opposing the velocity — hold for positive (falling) velocity,
release for negative — taking priority over the deadband pulse cycle
even when the error is inside the deadband. -/
theorem velocity_brake_priority (fish_y sweet_spot_y : ℤ) (d : Detector)
    (hdist : |fish_y - sweet_spot_y| ≤ 30)
    (hv : BRAKE_VELOCITY
      < |(shouldHoldCore (some fish_y) (some sweet_spot_y) d).2.sweet_spot_velocity|) :
    (shouldHoldCore (some fish_y) (some sweet_spot_y) d).1
      = decide
          (0 < (shouldHoldCore (some fish_y) (some sweet_spot_y) d).2.sweet_spot_velocity) := by
  by_cases hstuck : sweet_spot_y = 150 ∧ |d.sweet_spot_velocity| < 1/2
  · exfalso
    have hdit : shouldHoldCore (some fish_y) (some sweet_spot_y) d = ditherStep d := by
      simp only [shouldHoldCore]
      rw [if_pos hstuck]
    rw [hdit] at hv
    have h2 : (ditherStep d).2.sweet_spot_velocity = d.sweet_spot_velocity := rfl
    rw [h2] at hv
    have h3 := hstuck.2
    have h4 : (1 : ℚ)/2 < BRAKE_VELOCITY := by norm_num [BRAKE_VELOCITY]
    linarith
  · have hpres := shouldHoldCore_velocity fish_y sweet_spot_y d hstuck
    rw [hpres] at hv ⊢
    simp only [shouldHoldCore]
    rw [if_neg hstuck]
    have hd : fish_y - GRAVITY_COMPENSATION - sweet_spot_y = fish_y - sweet_spot_y := by
      simp [GRAVITY_COMPENSATION]
    rw [hd, if_neg (not_lt.mpr hdist)]
    have hw : decide (|(updateVelocity sweet_spot_y d).sweet_spot_velocity| < 1/10) = false := by
      rw [decide_eq_false_iff_not, not_lt]
      have : (1 : ℚ)/10 < BRAKE_VELOCITY := by norm_num [BRAKE_VELOCITY]
      linarith
    rw [hw]
    rcases lt_abs.mp hv with h8 | h8
    · -- fast positive (falling) velocity: second brake branch holds
      rw [if_neg (fun hcon => absurd hcon.2.2 (by
        have : -BRAKE_VELOCITY < (0 : ℚ) := by norm_num [BRAKE_VELOCITY]
        have : (0 : ℚ) < BRAKE_VELOCITY := by norm_num [BRAKE_VELOCITY]
        intro hneg
        linarith))]
      rw [if_pos ⟨rfl, hv, h8⟩]
      have : (0 : ℚ) < (updateVelocity sweet_spot_y d).sweet_spot_velocity := by
        have : (0 : ℚ) < BRAKE_VELOCITY := by norm_num [BRAKE_VELOCITY]
        linarith
      simp [this]
    · -- fast negative (rising) velocity: first brake branch releases
      have hneg : (updateVelocity sweet_spot_y d).sweet_spot_velocity < -BRAKE_VELOCITY := by
        linarith
      rw [if_pos ⟨rfl, hv, hneg⟩]
      have : ¬(0 : ℚ) < (updateVelocity sweet_spot_y d).sweet_spot_velocity := by
        have : (0 : ℚ) < BRAKE_VELOCITY := by norm_num [BRAKE_VELOCITY]
        linarith
      simp [this]

/-- Witness for C2: error -5 (inside the deadband), previous sample 60,
current 105, previous velocity 0: updated velocity 22.5 > 8, so the
controller holds to brake the fall. -/
theorem velocity_brake_priority_witness :
    |(100 : ℤ) - 105| ≤ 30 ∧
    BRAKE_VELOCITY
      < |(shouldHoldCore (some 100) (some 105)
          { initDetector with prev_sweet_spot_y := some 60 }).2.sweet_spot_velocity| ∧
    (shouldHoldCore (some 100) (some 105)
        { initDetector with prev_sweet_spot_y := some 60 }).1
      = decide
          (0 < (shouldHoldCore (some 100) (some 105)
            { initDetector with prev_sweet_spot_y := some 60 }).2.sweet_spot_velocity) :=
  by
  have hvel : (shouldHoldCore (some 100) (some 105)
      { initDetector with prev_sweet_spot_y := some 60 }).2.sweet_spot_velocity = 45/2 := by
    rw [shouldHoldCore_velocity 100 105 _ (by norm_num)]
    norm_num [updateVelocity, initDetector]
  have hb : BRAKE_VELOCITY
      < |(shouldHoldCore (some 100) (some 105)
          { initDetector with prev_sweet_spot_y := some 60 }).2.sweet_spot_velocity| := by
    rw [hvel, abs_of_pos (by norm_num : (0 : ℚ) < 45/2)]
    norm_num [BRAKE_VELOCITY]
  exact ⟨by decide, hb,
    velocity_brake_priority 100 105 { initDetector with prev_sweet_spot_y := some 60 }
      (by decide) hb⟩

/-! ## Claim C5 -/

/-- C5: in the dead band — target and actor fixed at an equal value `y`
(away from the seed 150 and the 70/250 edge-steady special cases),
smoothed velocity settled to 0 — over any window of `M ≥ 20` consecutive
ticks the controller's outputs follow the configured asymmetric
5-hold : 1-release pulse duty cycle within one cycle's rounding,
cycling indefinitely: the release count over the window is `M / 6` or
`M / 6 + 1`, every other tick holds, and the hold : release ratio is
5 : 1 up to one cycle. -/
theorem deadband_pulse_duty_cycle (y : ℤ) (g : Bool) (a M : ℕ)
    (h70 : 70 ≤ y) (h250 : y ≤ 250) (h150 : y ≠ 150) (ha : 1 ≤ a) (hM : 20 ≤ M) :
    countHolds y g a M = M - countReleases y g a M ∧
    M / 6 ≤ countReleases y g a M ∧ countReleases y g a M ≤ M / 6 + 1 ∧
    5 * countReleases y g a M ≤ countHolds y g a M + 5 ∧
    countHolds y g a M ≤ 5 * countReleases y g a M + 5 := by
  have h1 := counts_split y g a M
  have h2 := countReleases_formula y g h70 h250 h150 a ha M
  omega

/-- Witness for C5: actor and target at 100, white marker, the window of
the first 20 ticks. -/
theorem deadband_pulse_duty_cycle_witness :
    (70 : ℤ) ≤ 100 ∧ (100 : ℤ) ≤ 250 ∧ (100 : ℤ) ≠ 150 ∧ (1 : ℕ) ≤ 1 ∧ (20 : ℕ) ≤ 20 ∧
    (countHolds 100 false 1 20 = 20 - countReleases 100 false 1 20 ∧
      20 / 6 ≤ countReleases 100 false 1 20 ∧
      countReleases 100 false 1 20 ≤ 20 / 6 + 1 ∧
      5 * countReleases 100 false 1 20 ≤ countHolds 100 false 1 20 + 5 ∧
      countHolds 100 false 1 20 ≤ 5 * countReleases 100 false 1 20 + 5) :=
  ⟨by decide, by decide, by decide, by decide, by decide,
    deadband_pulse_duty_cycle 100 false 1 20
      (by decide) (by decide) (by decide) (by decide) (by decide)⟩

/-! ## Claim C9 -/

/-- An idle-timeout expiration below the no-bait threshold: the recast
counter is incremented, a single recast click is issued and the idle
timer restarts. -/
lemma idle_expire_click (m : Macro) (t0 now : ℚ) (c : ℕ)
    (hs : m.idle_start_time = some t0) (hcv : m.consecutive_idle_recasts = c)
    (ht : IDLE_TIMEOUT < now - t0) (hlt : c + 1 < NO_BAIT_THRESHOLD) :
    handleIdle false now m
      = ({ m with consecutive_idle_recasts := c + 1, idle_start_time := some now },
         [MAction.click]) := by
  unfold handleIdle
  rw [if_neg (show ¬(false = true) by simp)]
  rw [hs]
  simp only [Option.getD_some]
  try dsimp only
  rw [if_pos ht]
  simp only [hcv]
  rw [if_neg (by omega)]


/-- An idle-timeout expiration reaching the no-bait threshold: exactly
one anti-AFK action is issued and the recast counter is reset to 0. -/
lemma idle_expire_antiAfk (m : Macro) (t0 now : ℚ) (c : ℕ)
    (hs : m.idle_start_time = some t0) (hcv : m.consecutive_idle_recasts = c)
    (ht : IDLE_TIMEOUT < now - t0) (hge : NO_BAIT_THRESHOLD ≤ c + 1) :
    handleIdle false now m
      = ({ m with consecutive_idle_recasts := 0, idle_start_time := some now },
         [MAction.antiAfk]) := by
  unfold handleIdle
  rw [if_neg (show ¬(false = true) by simp)]
  rw [hs]
  simp only [Option.getD_some]
  try dsimp only
  rw [if_pos ht]
  simp only [hcv]
  rw [if_pos (by omega)]

/-- C9: starting from the idle state with the recast counter at 0, seven
consecutive idle-timeout expirations with no UI-present tick between
them issue a recast click and increment the counter on each of the first
six, and on the seventh trigger exactly one anti-idle (anti-AFK)
recovery action and reset the consecutive-recast counter to 0. -/
theorem idle_escalation_after_seven (m : Macro) (t0 : ℚ)
    (hs : m.idle_start_time = some t0) (hc : m.consecutive_idle_recasts = 0) :
    (idleRun m [t0 + 31, t0 + 62, t0 + 93, t0 + 124, t0 + 155, t0 + 186, t0 + 217]).2
      = [MAction.click, MAction.click, MAction.click, MAction.click, MAction.click,
         MAction.click, MAction.antiAfk] ∧
    (idleRun m
        [t0 + 31, t0 + 62, t0 + 93, t0 + 124, t0 + 155, t0 + 186,
          t0 + 217]).1.consecutive_idle_recasts = 0 ∧
    ((idleRun m [t0 + 31, t0 + 62, t0 + 93, t0 + 124, t0 + 155, t0 + 186,
        t0 + 217]).2.count MAction.antiAfk) = 1 := by
  have e1 := idle_expire_click m t0 (t0 + 31) 0 hs hc
    (by unfold IDLE_TIMEOUT; linarith) (by norm_num [NO_BAIT_THRESHOLD])
  have e2 := idle_expire_click
    { m with consecutive_idle_recasts := 0 + 1, idle_start_time := some (t0 + 31) }
    (t0 + 31) (t0 + 62) 1 rfl rfl
    (by unfold IDLE_TIMEOUT; linarith) (by norm_num [NO_BAIT_THRESHOLD])
  have e3 := idle_expire_click
    { m with consecutive_idle_recasts := 1 + 1, idle_start_time := some (t0 + 62) }
    (t0 + 62) (t0 + 93) 2 rfl rfl
    (by unfold IDLE_TIMEOUT; linarith) (by norm_num [NO_BAIT_THRESHOLD])
  have e4 := idle_expire_click
    { m with consecutive_idle_recasts := 2 + 1, idle_start_time := some (t0 + 93) }
    (t0 + 93) (t0 + 124) 3 rfl rfl
    (by unfold IDLE_TIMEOUT; linarith) (by norm_num [NO_BAIT_THRESHOLD])
  have e5 := idle_expire_click
    { m with consecutive_idle_recasts := 3 + 1, idle_start_time := some (t0 + 124) }
    (t0 + 124) (t0 + 155) 4 rfl rfl
    (by unfold IDLE_TIMEOUT; linarith) (by norm_num [NO_BAIT_THRESHOLD])
  have e6 := idle_expire_click
    { m with consecutive_idle_recasts := 4 + 1, idle_start_time := some (t0 + 155) }
    (t0 + 155) (t0 + 186) 5 rfl rfl
    (by unfold IDLE_TIMEOUT; linarith) (by norm_num [NO_BAIT_THRESHOLD])
  have e7 := idle_expire_antiAfk
    { m with consecutive_idle_recasts := 5 + 1, idle_start_time := some (t0 + 186) }
    (t0 + 186) (t0 + 217) 6 rfl rfl
    (by unfold IDLE_TIMEOUT; linarith) (by norm_num [NO_BAIT_THRESHOLD])
  simp only [idleRun]
  rw [e1]
  dsimp only
  rw [e2]
  dsimp only
  rw [e3]
  dsimp only
  rw [e4]
  dsimp only
  rw [e5]
  dsimp only
  rw [e6]
  dsimp only
  rw [e7]
  dsimp only
  refine ⟨rfl, rfl, ?_⟩
  rfl

/-- Witness for C9: a concrete idle macro state with the timer at 0. -/
theorem idle_escalation_after_seven_witness :
    ({ detector := initDetector, state := FishingState.idle, is_holding := false,
        idle_start_time := some 0, consecutive_idle_recasts := 0 } : Macro).idle_start_time
      = some 0 ∧
    ({ detector := initDetector, state := FishingState.idle, is_holding := false,
        idle_start_time := some 0, consecutive_idle_recasts := 0 } : Macro).consecutive_idle_recasts
      = 0 ∧
    ((idleRun
        { detector := initDetector, state := FishingState.idle, is_holding := false,
          idle_start_time := some 0, consecutive_idle_recasts := 0 }
        [0 + 31, 0 + 62, 0 + 93, 0 + 124, 0 + 155, 0 + 186, 0 + 217]).2
      = [MAction.click, MAction.click, MAction.click, MAction.click, MAction.click,
         MAction.click, MAction.antiAfk] ∧
      (idleRun
        { detector := initDetector, state := FishingState.idle, is_holding := false,
          idle_start_time := some 0, consecutive_idle_recasts := 0 }
        [0 + 31, 0 + 62, 0 + 93, 0 + 124, 0 + 155, 0 + 186,
          0 + 217]).1.consecutive_idle_recasts = 0 ∧
      ((idleRun
        { detector := initDetector, state := FishingState.idle, is_holding := false,
          idle_start_time := some 0, consecutive_idle_recasts := 0 }
        [0 + 31, 0 + 62, 0 + 93, 0 + 124, 0 + 155, 0 + 186,
          0 + 217]).2.count MAction.antiAfk) = 1) :=
  ⟨rfl, rfl,
    idle_escalation_after_seven
      { detector := initDetector, state := FishingState.idle, is_holding := false,
        idle_start_time := some 0, consecutive_idle_recasts := 0 } 0 rfl rfl⟩

end GpoFishing
